import Mathlib

/-!
Verification of the boxed layer adapter (`BoxLayer` in
`src/tower/src/util/boxed/layer.rs`).

The adapter erases the concrete type of a middleware layer behind a single
uniform, clonable handle whose produced service is always the type-erased
`BoxService`.  The surrounding framework's `Layer` and `Service` traits, the
`layer_fn` combinator and the `BoxService` erasure primitive live in other
crates of the same repository and are modelled here from the specification.

Three views of the same source code are developed:
* a pure model (`BoxLayer`) for behavioural claims;
* an effect-counting model (`BoxLayerC`) that instruments how many times the
  underlying wrap operation and the underlying service invocation are
  performed, for the claims about delegation counts and absence of caching;
* a reference-counted heap model (`ArcHeap` / `BoxLayerRc`) making the
  `Arc` sharing of the stored adapter explicit, for the claims about cloning.
-/

namespace TowerBoxed

/-- Modelled from the spec: the Transformer (tower `Service`) contract, which
lives outside `src/`.  A concrete service over a state type `σ` maps an input
of type `T` to either an output `U` or a failure `E` (the asynchronous future
is modelled by its resolved result; the readiness signal is not used by this
core). -/
structure ServiceImpl (σ T U E : Type) where
  call : σ → T → Except E U

/-- Modelled from the spec: the Wrapper (tower `Layer`) contract, which lives
outside `src/`.  A concrete wrapper over input type `In` produces an
associated service value of type `Svc`; pure construction, no side effects. -/
structure LayerImpl (In Svc : Type) where
  layer : In → Svc

/-- Modelled from the spec: the Boxed-Transformer erasure primitive
(`BoxService`, outside `src/`): some transformer from `T` to `U` or `E`,
concrete type hidden behind a uniform handle. -/
structure BoxService (T U E : Type) where
  call : T → Except E U

/-- Modelled from the spec: `BoxService::new` erases a concrete service with
identical external behaviour — the erased call is exactly the original
service's call on the captured service value. -/
def BoxService.new {σ T U E : Type} (c : ServiceImpl σ T U E) (s : σ) :
    BoxService T U E :=
  ⟨c.call s⟩

/-- Modelled from the spec: `tower_layer::layer_fn` (outside `src/`) builds a
wrapper whose wrap operation is exactly the given function. -/
def layerFn {In Svc : Type} (f : In → Svc) : LayerImpl In Svc :=
  ⟨f⟩

/-- The boxed layer (`BoxLayer`, pure model).  It wraps the stored adapter: a
wrapper over `In` whose associated service type is always the uniform
`BoxService T U E`.  The `Arc` sharing is made explicit in the heap model
`BoxLayerRc` below; lifetimes are compile-time only and have no runtime
content. -/
structure BoxLayer (In T U E : Type) where
  boxed : LayerImpl In (BoxService T U E)

/-- Translation of `BoxLayer::new`: capture the concrete wrapper `l` (whose
associated service type is `σ`, with service contract `c`) inside a
`layer_fn` closure that wraps the inner value with `l` and then erases the
resulting concrete service via `BoxService::new`. -/
def BoxLayer.new {In σ T U E : Type} (l : LayerImpl In σ)
    (c : ServiceImpl σ T U E) : BoxLayer In T U E :=
  { boxed := layerFn (fun inner =>
      let out := l.layer inner
      BoxService.new c out) }

/-- Translation of `impl Layer for BoxLayer`: applying delegates to the stored
adapter's wrap operation. -/
def BoxLayer.layer {In T U E : Type} (b : BoxLayer In T U E) (inner : In) :
    BoxService T U E :=
  b.boxed.layer inner

/-- Translation of `impl fmt::Debug for BoxLayer`: a debug struct named
"BoxLayer" with no fields renders as the bare name, for every instantiation
of the type parameters. -/
def BoxLayer.fmtDebug {In T U E : Type} (_b : BoxLayer In T U E) : String :=
  "BoxLayer"

/-! ### Effect-counting model

The same source, instrumented: the state records how many times the concrete
wrapper's wrap operation and the concrete service's call operation have been
performed.  Code that performs neither (such as closure creation and the
`Arc` allocation in `BoxLayer::new`) passes the state through unchanged. -/

/-- Invocation counters for the instrumented semantics. -/
structure Effects where
  wrapCalls : Nat
  svcCalls : Nat

/-- The concrete wrapper's wrap operation in the instrumented semantics:
produces the same service value and records one wrap invocation. -/
def LayerImpl.layerCounted {In σ : Type} (l : LayerImpl In σ) (inner : In)
    (e : Effects) : σ × Effects :=
  (l.layer inner, { e with wrapCalls := e.wrapCalls + 1 })

/-- The concrete service's call operation in the instrumented semantics:
produces the same result and records one service invocation. -/
def ServiceImpl.callCounted {σ T U E : Type} (c : ServiceImpl σ T U E)
    (s : σ) (t : T) (e : Effects) : Except E U × Effects :=
  (c.call s t, { e with svcCalls := e.svcCalls + 1 })

/-- The boxed layer in the instrumented semantics: the stored adapter is an
effectful wrap operation. -/
structure BoxLayerC (In T U E : Type) where
  boxed : In → Effects → BoxService T U E × Effects

/-- Instrumented `BoxLayer::new`.  The source body only creates the closure
and allocates the shared handle; it performs no wrap invocation and no
service invocation, so the effect state passes through unchanged.  The
closure body, run later, performs the one wrap invocation and the erasure. -/
def BoxLayerC.new {In σ T U E : Type} (l : LayerImpl In σ)
    (c : ServiceImpl σ T U E) (e : Effects) : BoxLayerC In T U E × Effects :=
  ({ boxed := fun inner e' =>
      let p := l.layerCounted inner e'
      (BoxService.new c p.1, p.2) }, e)

/-- Instrumented `BoxLayer::layer`: delegates to the stored adapter. -/
def BoxLayerC.layer {In T U E : Type} (b : BoxLayerC In T U E) (inner : In)
    (e : Effects) : BoxService T U E × Effects :=
  b.boxed inner e

/-! ### Reference-counted heap model

Modelled from the spec: `Arc`-style shared ownership — a heap of immutable
adapter objects with per-address reference counts; cloning a handle yields
the same address with the count incremented and performs no allocation. -/

/-- A heap of reference-counted immutable objects of type `α`.  `next` is the
next fresh address, `obj` the stored object at each allocated address, and
`count` the reference count at each address. -/
structure ArcHeap (α : Type) where
  next : Nat
  obj : Nat → Option α
  count : Nat → Nat

/-- Allocation (`Arc::new`): store the object at a fresh address with
reference count one; returns the address and the new heap. -/
def ArcHeap.alloc {α : Type} (h : ArcHeap α) (a : α) : Nat × ArcHeap α :=
  (h.next,
   { next := h.next + 1
     obj := fun i => if i = h.next then some a else h.obj i
     count := fun i => if i = h.next then 1 else h.count i })

/-- Cloning a handle (`Arc::clone`): increments the reference count at the
given address; the stored objects and the allocation frontier are untouched
(no deep copy). -/
def ArcHeap.cloneAt {α : Type} (h : ArcHeap α) (i : Nat) : ArcHeap α :=
  { h with count := fun j => if j = i then h.count j + 1 else h.count j }

/-- The stored adapter object: the erasing wrapper held behind the `Arc`
(the `dyn Layer` trait object whose service type is `BoxService T U E`). -/
def Adapter (In T U E : Type) : Type :=
  In → BoxService T U E

/-- The boxed layer in the heap model: it holds the address of its shared
adapter. -/
structure BoxLayerRc (In T U E : Type) where
  boxed : Nat

/-- Heap-model `BoxLayer::new`: build the erasing closure and allocate it
behind a fresh shared handle (the one heap allocation of construction). -/
def BoxLayerRc.new {In σ T U E : Type} (l : LayerImpl In σ)
    (c : ServiceImpl σ T U E) (h : ArcHeap (Adapter In T U E)) :
    BoxLayerRc In T U E × ArcHeap (Adapter In T U E) :=
  let layer : Adapter In T U E := fun inner => BoxService.new c (l.layer inner)
  let p := h.alloc layer
  (⟨p.1⟩, p.2)

/-- Heap-model `impl Clone for BoxLayer`: the clone holds the same adapter
address; the reference count at that address is incremented. -/
def BoxLayerRc.clone {In T U E : Type} (b : BoxLayerRc In T U E)
    (h : ArcHeap (Adapter In T U E)) :
    BoxLayerRc In T U E × ArcHeap (Adapter In T U E) :=
  (⟨b.boxed⟩, h.cloneAt b.boxed)

/-- Heap-model `BoxLayer::layer`: look up the shared adapter and delegate to
its wrap operation.  The method takes the receiver by shared reference and
the heap is returned unchanged. -/
def BoxLayerRc.layer {In T U E : Type} (b : BoxLayerRc In T U E)
    (h : ArcHeap (Adapter In T U E)) (inner : In) :
    Option (BoxService T U E) × ArcHeap (Adapter In T U E) :=
  ((h.obj b.boxed).map (fun f => f inner), h)

/-- Iterated cloning in the heap model: `n` successive clones of the handle,
threading the heap. -/
def BoxLayerRc.cloneN {In T U E : Type} :
    Nat → BoxLayerRc In T U E × ArcHeap (Adapter In T U E) →
    BoxLayerRc In T U E × ArcHeap (Adapter In T U E)
  | 0, p => p
  | n + 1, p => BoxLayerRc.cloneN n (BoxLayerRc.clone p.1 p.2)

/-! ### Concrete instances used by witnesses -/

/-- An identity wrapper over unit services, used as a concrete instance. -/
def unitLayer : LayerImpl Unit Unit :=
  ⟨fun _ => ()⟩

/-- A service contract whose call always fails with the string "boom". -/
def boomService : ServiceImpl Unit Unit Unit String :=
  ⟨fun _ _ => Except.error "boom"⟩

/-! ### Theorems -/

/-- C1: erasing any two concrete wrappers with compatible
(Input, T, U, Failure) signatures — even with different concrete service
types `σ₁`, `σ₂` — produces values of the identical uniform type
`BoxLayer In T U E` (they inhabit one container), and every application
produces a boxed transformer of the uniform type `BoxService T U E` with the
(Output, Failure) parameters declared at construction. -/
theorem construct_uniform_type (In T U E σ₁ σ₂ : Type)
    (l₁ : LayerImpl In σ₁) (c₁ : ServiceImpl σ₁ T U E)
    (l₂ : LayerImpl In σ₂) (c₂ : ServiceImpl σ₂ T U E) (x : In) :
    ([BoxLayer.new l₁ c₁, BoxLayer.new l₂ c₂] :
        List (BoxLayer In T U E)).length = 2 ∧
    ([(BoxLayer.new l₁ c₁).layer x, (BoxLayer.new l₂ c₂).layer x] :
        List (BoxService T U E)).length = 2 :=
  ⟨rfl, rfl⟩

/-- C2: applying a boxed layer is pure delegation — it delegates to the
stored adapter, and on a boxed layer constructed from `l` it first invokes
`l`'s wrap operation on the inner value and then erases exactly the
resulting service via the boxed-transformer primitive, with no other
transformation: the erased call behaviour is the concrete service's own
call. -/
theorem apply_pure_delegation (In σ T U E : Type) (l : LayerImpl In σ)
    (c : ServiceImpl σ T U E) (b : BoxLayer In T U E) (inner : In) :
    b.layer inner = b.boxed.layer inner ∧
    (BoxLayer.new l c).layer inner = BoxService.new c (l.layer inner) ∧
    ((BoxLayer.new l c).layer inner).call = c.call (l.layer inner) :=
  ⟨rfl, rfl, rfl⟩

/-- C3: failures propagate unchanged through the erasure boundary — if the
concrete wrapped service fails with failure `e` on input `t`, the erased
boxed transformer produced by applying the boxed layer fails with exactly
that failure on `t`. -/
theorem failure_propagates (In σ T U E : Type) (l : LayerImpl In σ)
    (c : ServiceImpl σ T U E) (inner : In) (t : T) (e : E)
    (h : c.call (l.layer inner) t = Except.error e) :
    ((BoxLayer.new l c).layer inner).call t = Except.error e :=
  h

/-- Witness for C3: the always-failing "boom" wrapper, after erasure, fails
with exactly "boom". -/
theorem failure_propagates_witness :
    boomService.call (unitLayer.layer ()) () = Except.error "boom" ∧
    ((BoxLayer.new unitLayer boomService).layer ()).call ()
      = Except.error "boom" :=
  ⟨rfl, failure_propagates Unit Unit Unit Unit String unitLayer boomService
    () () "boom" rfl⟩

/-- C4: construction is infallible (a total function with no failure path)
and, in the instrumented semantics, construction performs no effects at all
while application performs no service invocation — applying only constructs
and erases a service value, never invokes it; failures can only arise later,
from invoking the resulting boxed transformer. -/
theorem construct_apply_no_failure (In σ T U E : Type) (l : LayerImpl In σ)
    (c : ServiceImpl σ T U E) (e₀ e : Effects) (inner : In) :
    (∃ b : BoxLayer In T U E, BoxLayer.new l c = b) ∧
    (BoxLayerC.new l c e₀).2 = e₀ ∧
    ((BoxLayerC.new l c e₀).1.layer inner e).2.svcCalls = e.svcCalls :=
  ⟨⟨BoxLayer.new l c, rfl⟩, rfl, rfl⟩

/-- C5: a clone shares the same underlying adapter as the original — same
adapter address (pointer equality of the shared handle), reference count
incremented by one, no deep copy (the stored objects and the allocation
frontier are unchanged) — and applying the clone yields the same erased
boxed transformer as applying the original with an equal input. -/
theorem clone_shares_adapter (In T U E : Type) (b : BoxLayerRc In T U E)
    (h : ArcHeap (Adapter In T U E)) (inner : In) :
    (BoxLayerRc.clone b h).1.boxed = b.boxed ∧
    (BoxLayerRc.clone b h).2.count b.boxed = h.count b.boxed + 1 ∧
    (BoxLayerRc.clone b h).2.obj = h.obj ∧
    (BoxLayerRc.clone b h).2.next = h.next ∧
    ((BoxLayerRc.clone b h).1.layer (BoxLayerRc.clone b h).2 inner).1
      = (b.layer h inner).1 := by
  refine ⟨rfl, ?_, rfl, rfl, rfl⟩
  simp [BoxLayerRc.clone, ArcHeap.cloneAt]

/-- C6: applying twice with the same input on the same boxed layer performs
two independent constructions through the adapter (the wrap invocation count
rises by two, so the first result is not cached), both resulting boxed
transformers are independently invokable with the delegated behaviour, and
application leaves the boxed layer's state unchanged (in the heap model the
heap is returned untouched). -/
theorem apply_twice_independent (In σ T U E : Type) (l : LayerImpl In σ)
    (c : ServiceImpl σ T U E) (brc : BoxLayerRc In T U E)
    (hp : ArcHeap (Adapter In T U E)) (x : In) (e₀ e : Effects) (t : T) :
    (brc.layer hp x).2 = hp ∧
    ((BoxLayerC.new l c e₀).1.layer x
        (((BoxLayerC.new l c e₀).1.layer x e).2)).2.wrapCalls
      = e.wrapCalls + 2 ∧
    (((BoxLayerC.new l c e₀).1.layer x e).1).call t
      = c.call (l.layer x) t ∧
    (((BoxLayerC.new l c e₀).1.layer x
        (((BoxLayerC.new l c e₀).1.layer x e).2)).1).call t
      = c.call (l.layer x) t :=
  ⟨rfl, rfl, rfl, rfl⟩

/-- C7: the debug representation of a boxed layer is the constant structure
name with no fields, identical for any two boxed layers regardless of type
parameters and of which concrete wrappers were erased into them, so the
concrete wrapped type is not observable through it. -/
theorem debug_opaque (In₁ T₁ U₁ E₁ In₂ T₂ U₂ E₂ : Type)
    (b₁ : BoxLayer In₁ T₁ U₁ E₁) (b₂ : BoxLayer In₂ T₂ U₂ E₂) :
    b₁.fmtDebug = "BoxLayer" ∧ b₁.fmtDebug = b₂.fmtDebug :=
  ⟨rfl, rfl⟩

/-- C9: in the instrumented semantics, construction performs no wrap
invocation (a boxed layer that is never applied never calls the underlying
wrap at all), and each application performs exactly one wrap invocation. -/
theorem construct_defers_wrap (In σ T U E : Type) (l : LayerImpl In σ)
    (c : ServiceImpl σ T U E) (e₀ e : Effects) (inner : In) :
    (BoxLayerC.new l c e₀).2 = e₀ ∧
    ((BoxLayerC.new l c e₀).1.layer inner e).2.wrapCalls
      = e.wrapCalls + 1 :=
  ⟨rfl, rfl⟩

/-- Helper: iterated cloning never changes the adapter address, the stored
objects, or the allocation frontier. -/
theorem cloneN_preserves {In T U E : Type} (n : Nat)
    (b : BoxLayerRc In T U E) (hp : ArcHeap (Adapter In T U E)) :
    (BoxLayerRc.cloneN n (b, hp)).1.boxed = b.boxed ∧
    (BoxLayerRc.cloneN n (b, hp)).2.obj = hp.obj ∧
    (BoxLayerRc.cloneN n (b, hp)).2.next = hp.next := by
  induction n generalizing b hp with
  | zero => exact ⟨rfl, rfl, rfl⟩
  | succ n ih =>
    simpa [BoxLayerRc.cloneN, BoxLayerRc.clone, ArcHeap.cloneAt]
      using ih ⟨b.boxed⟩ (hp.cloneAt b.boxed)

/-- C10: the clone, wrap and debug operations are defined for every
instantiation of the type parameters with no further requirements (the
quantification below carries no constraint on `In`, `T`, `U`, `E`), every
clone holds the identical adapter address as the original (pointer
equality), and no matter how many clones are made there is exactly one
adapter allocation: construction allocates once and cloning allocates
nothing. -/
theorem clone_single_allocation (In T U E σ : Type) (l : LayerImpl In σ)
    (c : ServiceImpl σ T U E) (h : ArcHeap (Adapter In T U E)) (n : Nat)
    (b₀ : BoxLayer In T U E) (inner : In) :
    (BoxLayerRc.cloneN n (BoxLayerRc.new l c h)).1.boxed
      = (BoxLayerRc.new l c h).1.boxed ∧
    (BoxLayerRc.cloneN n (BoxLayerRc.new l c h)).2.obj
      = (BoxLayerRc.new l c h).2.obj ∧
    (BoxLayerRc.cloneN n (BoxLayerRc.new l c h)).2.next
      = (BoxLayerRc.new l c h).2.next ∧
    (BoxLayerRc.new l c h).2.next = h.next + 1 ∧
    b₀.fmtDebug = "BoxLayer" ∧
    (∃ s : BoxService T U E, b₀.layer inner = s) := by
  obtain ⟨h1, h2, h3⟩ :=
    cloneN_preserves n (BoxLayerRc.new l c h).1 (BoxLayerRc.new l c h).2
  exact ⟨h1, h2, h3, rfl, rfl, ⟨b₀.layer inner, rfl⟩⟩

end TowerBoxed
